import Mathlib

/-!
Verification of the OpenXR API-layer dispatch framework
(`openxr-api-layer/framework/dispatch_generator.py` together with the layer
configuration in `layer_apis.py`).

The Python generator emits, for a fixed configuration (an override set, a
requested set and an extension list), the C++ dispatch code of the layer:
the per-entry-point trampolines (`genWrappers`), the proc-address
interceptor (`genGetInstanceProcAddr`), the instance-creation handler
(`genCreateInstance`) and the hand-written preamble of `dispatch.gen.h`
(`OpenXrApi::xrDestroyInstance`,
`OpenXrApi::xrEnumerateInstanceExtensionProperties`).  This file gives a
shallow embedding of the semantics of that emitted code, parameterised by
the configuration and by the real runtime (the next `xrGetInstanceProcAddr`
in the chain), and proves the behavioural properties of the dispatch
mechanism.
-/

namespace OpenXrLayer

/-! ## Result codes and basic vocabulary -/

def XR_SUCCESS : Int := 0
def XR_ERROR_VALIDATION_FAILURE : Int := -1
def XR_ERROR_RUNTIME_FAILURE : Int := -2
def XR_ERROR_FUNCTION_UNSUPPORTED : Int := -7
def XR_ERROR_SIZE_INSUFFICIENT : Int := -11

/-- The `XR_SUCCEEDED(result)` macro: `(result >= 0)`. -/
def XR_SUCCEEDED (r : Int) : Bool := decide (0 ≤ r)

/-- The `XR_FAILED(result)` macro: `(result < 0)`. -/
def XR_FAILED (r : Int) : Bool := decide (r < 0)

/-- A C function pointer as it appears at the dispatch boundary: null, a
pointer into the real runtime (identified by the symbol it resolves), or
the address of one of the layer's generated trampolines. -/
inductive FnPtr where
  | null : FnPtr
  | real : String → FnPtr
  | trampoline : String → FnPtr
deriving DecidableEq, Repr

/-- Whether a pointer is one of the layer's trampoline addresses. -/
def FnPtr.isTrampolinePtr : FnPtr → Bool
  | .trampoline _ => true
  | _ => false

/-! ## Entry Trampoline (`genWrappers`)

Each generated wrapper emits a trace bracket, dispatches to the singleton
instance inside a `try`, converts any `std::exception` into
`XR_ERROR_RUNTIME_FAILURE` after logging it, and finally logs once more if
the outgoing result is a failure code.  The observable effects are
modelled as a list of events. -/

inductive TraceEvent where
  | traceStart : String → TraceEvent
  | traceStop : String → Option Int → TraceEvent
  | traceError : String → String → TraceEvent
  | errorLogExc : String → String → TraceEvent
  | errorLogFailed : String → Int → TraceEvent
deriving DecidableEq, Repr

/-- The `ErrorLog` records among the events (the catch-site log and the
`failed with` log). -/
def TraceEvent.isErrorLog : TraceEvent → Bool
  | .errorLogExc _ _ => true
  | .errorLogFailed _ _ => true
  | _ => false

/-- Just the catch-site `ErrorLog` record (the one produced inside the
`catch` handler, carrying the exception message). -/
def TraceEvent.isCatchSiteLog : TraceEvent → Bool
  | .errorLogExc _ _ => true
  | _ => false

/-- The generated wrapper for a result-returning entry point.  The
override logic either returns an `XrResult` or raises an exception
carrying a message; the wrapper itself is total: it always returns a
result and the list of trace/log events, in emission order. -/
def entryTrampoline (name : String) (logic : Except String Int) :
    Int × List TraceEvent :=
  let out : Int × List TraceEvent :=
    match logic with
    | .ok r => (r, [])
    | .error msg =>
        (XR_ERROR_RUNTIME_FAILURE,
         [TraceEvent.traceError name msg, TraceEvent.errorLogExc name msg])
  (out.1,
   TraceEvent.traceStart name :: out.2
     ++ [TraceEvent.traceStop name (some out.1)]
     ++ (if XR_FAILED out.1 then [TraceEvent.errorLogFailed name out.1] else []))

/-- The generated wrapper for a void entry point: same shape, no result
and no trailing failure log. -/
def entryTrampolineVoid (name : String) (logic : Except String Unit) :
    List TraceEvent :=
  let catchEvents : List TraceEvent :=
    match logic with
    | .ok _ => []
    | .error msg =>
        [TraceEvent.traceError name msg, TraceEvent.errorLogExc name msg]
  TraceEvent.traceStart name :: catchEvents ++ [TraceEvent.traceStop name none]

/-- The trace bracket: the very first event is the activity start and a
matching stop record appears among the events. -/
def tracedBracket (name : String) (events : List TraceEvent) : Prop :=
  events.head? = some (TraceEvent.traceStart name)
  ∧ ∃ r, TraceEvent.traceStop name r ∈ events

/-! ## Instance Registry destruction protocol
(`OpenXrApi::xrDestroyInstance` in the generated header preamble)

The body is three statements: copy `m_xrDestroyInstance` into a local,
`ResetInstance()` (which destroys the singleton), then call the local
copy.  We give the three statements a small-step semantics in which
reading a field of the instance requires the registry slot to still be
occupied, so that a use-after-destroy is a stuck (`none`) execution. -/

structure OpenXrApi where
  m_instance : Nat
  m_applicationName : String
  m_grantedExtensions : List String
  /-- the `m_<name>` function-pointer members (the Function Binding Table) -/
  bindings : String → FnPtr
  /-- the `m_xrDestroyInstance` member (the stored final-destroy pointer) -/
  m_xrDestroyInstance : FnPtr

inductive DestroyInstr where
  | captureFinalDestroy
  | resetInstance
  | invokeCaptured
deriving DecidableEq, Repr

structure DestroyState where
  g_instance : Option OpenXrApi
  localFinal : Option FnPtr
  invoked : List FnPtr

/-- One statement of the destruction body.  `captureFinalDestroy` reads a
field of the live instance and therefore requires the registry slot to be
occupied; `invokeCaptured` only reads the local copy. -/
def destroyStep : DestroyInstr → DestroyState → Option DestroyState
  | .captureFinalDestroy, s =>
      match s.g_instance with
      | some api => some { s with localFinal := some api.m_xrDestroyInstance }
      | none => none
  | .resetInstance, s => some { s with g_instance := none }
  | .invokeCaptured, s =>
      match s.localFinal with
      | some p => some { s with invoked := s.invoked ++ [p] }
      | none => none

def runDestroy : List DestroyInstr → DestroyState → Option DestroyState
  | [], s => some s
  | i :: rest, s => (destroyStep i s).bind (runDestroy rest)

/-- The statement sequence of the generated `xrDestroyInstance` body. -/
def xrDestroyInstanceBody : List DestroyInstr :=
  [DestroyInstr.captureFinalDestroy, DestroyInstr.resetInstance,
   DestroyInstr.invokeCaptured]

/-! ## Configuration (`layer_apis.py`) and its sanity checks -/

structure LayerConfig where
  override_functions : List String
  requested_functions : List String
  extensions : List String
deriving DecidableEq, Repr

/-- The API surface described by the OpenXR registry: the core
(XR_VERSION_1_0) commands and the commands contributed by the emitted
extensions (`self.core_commands` / `self.ext_commands` in the
generator). -/
structure ApiSurface where
  core_commands : List String
  ext_commands : List String
deriving DecidableEq, Repr

/-- The loop variable of the first sanity-check loop in
`dispatch_generator.py`. -/
def implicitlyOverriddenFunctions : List String :=
  ["xrCreateInstance", "xrDestroyInstance",
   "xrEnumerateInstanceExtensionProperties"]

/-- The first sanity-check loop: for each implicitly-handled function,
reject it in `override_functions`, then in `requested_functions`. -/
def checkSpecialFunctions (cfg : LayerConfig) : List String → Except String Unit
  | [] => Except.ok ()
  | f :: rest =>
    if f ∈ cfg.override_functions then
      Except.error (f ++ "() is implicitly overriden and shall not be specified in override_functions")
    else if f ∈ cfg.requested_functions then
      Except.error (f ++ "() cannot be specified in requested_functions")
    else checkSpecialFunctions cfg rest

/-- The module-level configuration sanity checks of
`dispatch_generator.py` (lines 41-51); a raised `Exception` is modelled
as `Except.error`.  These run when the generator is imported, i.e. at
build time, before any dispatch code exists. -/
def checkConfiguration (cfg : LayerConfig) : Except String Unit :=
  match checkSpecialFunctions cfg implicitlyOverriddenFunctions with
  | Except.error e => Except.error e
  | Except.ok _ =>
    if "xrGetInstanceProcAddr" ∈ cfg.override_functions then
      Except.error "xrGetInstanceProcAddr() is implicitly overriden and shall not be specified in override_functions"
    else if "xrGetInstanceProcAddr" ∈ cfg.requested_functions then
      Except.error "xrGetInstanceProcAddr() cannot be specified in requested_functions"
    else Except.ok ()

/-- The configuration of `openxr-api-layer/framework/layer_apis.py`. -/
def quadViewsFoveatedConfig : LayerConfig :=
  { override_functions :=
      ["xrGetSystem", "xrGetSystemProperties", "xrEnumerateViewConfigurations",
       "xrGetViewConfigurationProperties", "xrEnumerateViewConfigurationViews",
       "xrEnumerateEnvironmentBlendModes", "xrCreateReferenceSpace",
       "xrDestroySpace", "xrCreateSession", "xrDestroySession",
       "xrBeginSession", "xrAttachSessionActionSets", "xrCreateSwapchain",
       "xrDestroySwapchain", "xrAcquireSwapchainImage",
       "xrReleaseSwapchainImage", "xrLocateViews", "xrLocateSpace",
       "xrWaitFrame", "xrBeginFrame", "xrEndFrame", "xrPollEvent",
       "xrSyncActions", "xrGetVisibilityMaskKHR"],
    requested_functions :=
      ["xrGetInstanceProperties", "xrGetSystem", "xrGetSystemProperties",
       "xrCreateReferenceSpace", "xrDestroySpace", "xrCreateSwapchain",
       "xrDestroySwapchain", "xrEnumerateSwapchainImages",
       "xrAcquireSwapchainImage", "xrWaitSwapchainImage",
       "xrReleaseSwapchainImage", "xrPathToString", "xrStringToPath",
       "xrCreateActionSet", "xrCreateAction",
       "xrSuggestInteractionProfileBindings", "xrCreateActionSpace",
       "xrLocateViews", "xrWaitFrame", "xrBeginFrame",
       "xrGetActionStatePose", "xrSyncActions", "xrCreateEyeTrackerFB",
       "xrGetEyeGazesFB"],
    extensions := ["XR_KHR_visibility_mask", "XR_FB_eye_tracking_social"] }

/-- The configuration of
`XR_APILAYER_NOVENDOR_template/framework/layer_apis.py`. -/
def templateLayerConfig : LayerConfig :=
  { override_functions := ["xrGetSystem", "xrCreateSession"],
    requested_functions := ["xrGetInstanceProperties", "xrGetSystemProperties"],
    extensions := [] }

/-! ## Proc-Address Interceptor (`genGetInstanceProcAddr`)

`OpenXrApi::xrGetInstanceProcAddrInternal` first calls the next
`xrGetInstanceProcAddr` in the chain, then rewrites the out-pointer along
an `else if` chain: `xrDestroyInstance` first and unconditionally, then
every core command in the override set (plus the implicitly intercepted
`xrEnumerateInstanceExtensionProperties`), then every extension command
in the override set — the latter also forcing the result to
`XR_SUCCESS`. -/

def xrGetInstanceProcAddrInternal (cfg : LayerConfig) (surface : ApiSurface)
    (m_xrGetInstanceProcAddr : String → Int × FnPtr)
    (api : OpenXrApi) (name : String) : Int × FnPtr × OpenXrApi :=
  let result := (m_xrGetInstanceProcAddr name).1
  let p := (m_xrGetInstanceProcAddr name).2
  if name = "xrDestroyInstance" then
    (result, FnPtr.trampoline "xrDestroyInstance",
     { api with m_xrDestroyInstance := p })
  else if name ∈ surface.core_commands
      ∧ name ∈ cfg.override_functions ++ ["xrEnumerateInstanceExtensionProperties"] then
    (result, FnPtr.trampoline name,
     { api with bindings := Function.update api.bindings name p })
  else if name ∈ surface.ext_commands ∧ name ∈ cfg.override_functions then
    (XR_SUCCESS, FnPtr.trampoline name,
     { api with bindings := Function.update api.bindings name p })
  else
    (result, p, api)

/-! ## Instance creation (`genCreateInstance`)

`OpenXrApi::xrCreateInstance` resolves every requested core command
through `m_xrGetInstanceProcAddr`, throwing on failure; then resolves
every requested extension command ignoring the result (the binding may
stay null); then captures the application name and returns
`XR_SUCCESS`.  The order of observable actions is recorded as events. -/

inductive CreateEvent where
  | resolveBinding : String → CreateEvent
  | captureApplicationName : CreateEvent
deriving DecidableEq, Repr

/-- The requested-core loop of the generated `xrCreateInstance`: each
call writes the out-pointer into the member binding, then
`XR_FAILED` on the result raises `std::runtime_error`. -/
def resolveRequiredList (resolve : String → Int × FnPtr) :
    List String → OpenXrApi → Except String (OpenXrApi × List CreateEvent)
  | [], api => Except.ok (api, [])
  | n :: rest, api =>
    let r := (resolve n).1
    let api2 : OpenXrApi :=
      { api with bindings := Function.update api.bindings n (resolve n).2 }
    if XR_FAILED r then Except.error ("Failed to resolve " ++ n)
    else
      match resolveRequiredList resolve rest api2 with
      | Except.ok (apiF, evs) => Except.ok (apiF, CreateEvent.resolveBinding n :: evs)
      | Except.error e => Except.error e

/-- The requested-extension loop: same resolution, result ignored
("functions from extensions are allowed to be null"). -/
def resolveOptionalList (resolve : String → Int × FnPtr) :
    List String → OpenXrApi → OpenXrApi × List CreateEvent
  | [], api => (api, [])
  | n :: rest, api =>
    let api2 : OpenXrApi :=
      { api with bindings := Function.update api.bindings n (resolve n).2 }
    let out := resolveOptionalList resolve rest api2
    (out.1, CreateEvent.resolveBinding n :: out.2)

/-- The generated `OpenXrApi::xrCreateInstance`. -/
def xrCreateInstance (cfg : LayerConfig) (surface : ApiSurface)
    (resolve : String → Int × FnPtr) (api : OpenXrApi)
    (applicationName : String) :
    Except String (Int × OpenXrApi × List CreateEvent) :=
  match resolveRequiredList resolve
      (surface.core_commands.filter (· ∈ cfg.requested_functions)) api with
  | Except.error e => Except.error e
  | Except.ok (api1, evs1) =>
    let out := resolveOptionalList resolve
      (surface.ext_commands.filter (· ∈ cfg.requested_functions)) api1
    Except.ok (XR_SUCCESS,
      { out.1 with m_applicationName := applicationName },
      evs1 ++ out.2 ++ [CreateEvent.captureApplicationName])

/-- Modelled from the spec: the layer's instance-creation entry point
itself lives in the non-generated framework sources (not among the
provided files).  Per §4.2 and §7 of the specification it runs the
creation protocol above and publishes the Instance into the single
registry slot only when the protocol succeeds; a fatal resolution
failure aborts creation, the slot stays empty, and the failure surfaces
as a generic failure result through the uniform error boundary of
§4.3. -/
def createAndPublishInstance (cfg : LayerConfig) (surface : ApiSurface)
    (resolve : String → Int × FnPtr) (api : OpenXrApi)
    (applicationName : String) : Option OpenXrApi × Int :=
  match xrCreateInstance cfg surface resolve api applicationName with
  | Except.ok (r, api2, _) => (some api2, r)
  | Except.error _ => (none, XR_ERROR_RUNTIME_FAILURE)

/-! ## Extension Advertiser
(`OpenXrApi::xrEnumerateInstanceExtensionProperties` in the generated
header preamble) -/

structure XrExtensionProperties where
  type : Nat
  extensionName : String
  extensionVersion : Nat
deriving DecidableEq, Repr

def XR_TYPE_EXTENSION_PROPERTIES : Nat := 2

/-- The caller-owned outputs of the enumerate call: the
`*propertyCountOutput` cell and the `properties` buffer (modelled as a
total map from slot index to record). -/
structure EnumBuffer where
  propertyCountOutput : Nat
  properties : Nat → XrExtensionProperties

/-- The fill loop `for (i = baseOffset; i < *propertyCountOutput; i++)`:
each advertised descriptor is written at the next slot after validating
the slot's structure type; a mismatch sets `XR_ERROR_VALIDATION_FAILURE`
and breaks out of the loop. -/
def writeExtensionProperties :
    List (String × Nat) → Nat → (Nat → XrExtensionProperties) →
    Int × (Nat → XrExtensionProperties)
  | [], _, props => (XR_SUCCESS, props)
  | d :: rest, i, props =>
    if (props i).type ≠ XR_TYPE_EXTENSION_PROPERTIES then
      (XR_ERROR_VALIDATION_FAILURE, props)
    else
      writeExtensionProperties rest (i + 1)
        (Function.update props i
          { props i with extensionName := d.1, extensionVersion := d.2 })

/-- The generated `OpenXrApi::xrEnumerateInstanceExtensionProperties`:
call the next layer unless the filter names this layer, then — on a
successful result, when the filter is absent or names this layer —
augment the reported count with the advertised extensions and, for a
capacity-supplied call, either fail with `XR_ERROR_SIZE_INSUFFICIENT` or
run the fill loop. -/
def xrEnumerateInstanceExtensionProperties
    (LAYER_NAME : String) (advertisedExtensions : List (String × Nat))
    (m_xrEnumerateInstanceExtensionProperties :
        Option String → Nat → EnumBuffer → Int × EnumBuffer)
    (layerName : Option String) (propertyCapacityInput : Nat)
    (buf : EnumBuffer) : Int × EnumBuffer :=
  let out : Int × EnumBuffer :=
    if layerName = none ∨ layerName ≠ some LAYER_NAME then
      m_xrEnumerateInstanceExtensionProperties layerName propertyCapacityInput buf
    else
      (XR_ERROR_RUNTIME_FAILURE, buf)
  let result := out.1
  let buf1 := out.2
  if XR_SUCCEEDED result then
    if layerName = none ∨ layerName = some LAYER_NAME then
      let baseOffset := buf1.propertyCountOutput
      let buf2 : EnumBuffer :=
        { buf1 with propertyCountOutput := baseOffset + advertisedExtensions.length }
      if propertyCapacityInput ≠ 0 then
        if propertyCapacityInput < buf2.propertyCountOutput then
          (XR_ERROR_SIZE_INSUFFICIENT, buf2)
        else
          let filled := writeExtensionProperties advertisedExtensions baseOffset buf2.properties
          (filled.1, { buf2 with properties := filled.2 })
      else
        (result, buf2)
    else (result, buf1)
  else (result, buf1)

/-! ## Concrete fixtures used to evaluate the definitions -/

/-- A small API surface used for concrete evaluation. -/
def sampleSurface : ApiSurface :=
  { core_commands :=
      ["xrGetSystem", "xrCreateSession", "xrGetInstanceProperties",
       "xrGetSystemProperties"],
    ext_commands := ["xrCreateEyeTrackerFB", "xrGetVisibilityMaskKHR"] }

/-- A small configuration used for concrete evaluation; it passes the
sanity checks. -/
def sampleConfig : LayerConfig :=
  { override_functions := ["xrGetSystem", "xrGetVisibilityMaskKHR"],
    requested_functions :=
      ["xrGetInstanceProperties", "xrGetSystemProperties", "xrCreateEyeTrackerFB"],
    extensions := ["XR_FB_eye_tracking_social", "XR_KHR_visibility_mask"] }

/-- A next-layer resolver that resolves everything except
`xrCreateEyeTrackerFB`, for which it fails and writes a null pointer. -/
def sampleResolve : String → Int × FnPtr := fun n =>
  if n = "xrCreateEyeTrackerFB" then (XR_ERROR_FUNCTION_UNSUPPORTED, FnPtr.null)
  else (XR_SUCCESS, FnPtr.real n)

/-- A next-layer resolver that fails on every name. -/
def failingResolve : String → Int × FnPtr := fun _ =>
  (XR_ERROR_FUNCTION_UNSUPPORTED, FnPtr.null)

/-- A freshly constructed `OpenXrApi` object: every binding null. -/
def initialOpenXrApi : OpenXrApi :=
  { m_instance := 1, m_applicationName := "", m_grantedExtensions := [],
    bindings := fun _ => FnPtr.null, m_xrDestroyInstance := FnPtr.null }

def sampleLayerName : String := "XR_APILAYER_MBUCCHIA_quad_views_foveated"

def sampleAdvertised : List (String × Nat) :=
  [("XR_VARJO_quad_views", 1), ("XR_META_foveation_eye_tracked", 1)]

/-- A destination slot with the expected structure type. -/
def goodSlot : XrExtensionProperties :=
  { type := XR_TYPE_EXTENSION_PROPERTIES, extensionName := "", extensionVersion := 0 }

/-- A destination slot with a wrong structure type. -/
def badSlot : XrExtensionProperties :=
  { type := 0, extensionName := "", extensionVersion := 0 }

def sampleBuffer : EnumBuffer :=
  { propertyCountOutput := 0, properties := fun _ => goodSlot }

/-- A buffer whose slot 2 has a wrong structure type. -/
def mixedBuffer : EnumBuffer :=
  { propertyCountOutput := 0,
    properties := fun i => if i = 2 then badSlot else goodSlot }

/-- A next-layer enumerate that reports exactly one extension and writes
nothing into the buffer. -/
def sampleRealEnumerate : Option String → Nat → EnumBuffer → Int × EnumBuffer :=
  fun _ _ buf => (XR_SUCCESS, { buf with propertyCountOutput := 1 })

/-- A configuration whose Requested Set contains the destruction entry
point but which contains none of the names the claimed validation rule
forbids (creation, destruction and proc-address resolution in the
Override Set; proc-address resolution in the Requested Set). -/
def c9Config : LayerConfig :=
  { override_functions := [],
    requested_functions := ["xrDestroyInstance"],
    extensions := [] }

/-! # Theorems -/

/-- C1, counterexample.  The claim says an error raised by override logic
is "logged exactly once"; but for a result-returning entry point the
generated wrapper emits two `ErrorLog` records on the exception path: the
catch-site log and, because the converted result
`XR_ERROR_RUNTIME_FAILURE` satisfies `XR_FAILED`, the trailing
"failed with" log.  Concretely for `xrGetSystem` raising "boom". -/
theorem C1_counterexample :
    ((entryTrampoline "xrGetSystem" (Except.error "boom")).2.countP
        TraceEvent.isErrorLog) = 2
    ∧ ¬ ((entryTrampoline "xrGetSystem" (Except.error "boom")).2.countP
        TraceEvent.isErrorLog) = 1 := by
  decide

/-- C1, amended.  Any error raised by the override logic is caught at the
trampoline boundary and converted to `XR_ERROR_RUNTIME_FAILURE` for
result-returning entry points (absorbed, with no result, for
void-returning ones); the exception is logged exactly once at the catch
site, result-returning entry points additionally emitting one
failure-result log record (two `ErrorLog` records in total, a
void-returning entry point emitting exactly one); no error propagates
past the trampoline (the wrapper is a total function on every outcome),
and the begin/end trace bracket is emitted regardless of outcome. -/
theorem C1_trampoline_error_boundary (name msg : String) :
    (entryTrampoline name (Except.error msg)).1 = XR_ERROR_RUNTIME_FAILURE
    ∧ ((entryTrampoline name (Except.error msg)).2.countP
        TraceEvent.isCatchSiteLog) = 1
    ∧ TraceEvent.errorLogExc name msg ∈ (entryTrampoline name (Except.error msg)).2
    ∧ ((entryTrampoline name (Except.error msg)).2.countP
        TraceEvent.isErrorLog) = 2
    ∧ ((entryTrampolineVoid name (Except.error msg)).countP
        TraceEvent.isErrorLog) = 1
    ∧ TraceEvent.errorLogExc name msg ∈ entryTrampolineVoid name (Except.error msg)
    ∧ (∀ logic : Except String Int,
        tracedBracket name (entryTrampoline name logic).2)
    ∧ (∀ logicv : Except String Unit,
        tracedBracket name (entryTrampolineVoid name logicv)) := by
  refine ⟨rfl, rfl, ?_, rfl, rfl, ?_, ?_, ?_⟩
  · simp [entryTrampoline, XR_FAILED, XR_ERROR_RUNTIME_FAILURE]
  · simp [entryTrampolineVoid]
  · intro logic
    cases logic with
    | ok r =>
        exact ⟨rfl, some r, by simp [entryTrampoline]⟩
    | error m =>
        exact ⟨rfl, some XR_ERROR_RUNTIME_FAILURE, by simp [entryTrampoline]⟩
  · intro logicv
    cases logicv with
    | ok u => exact ⟨rfl, none, by simp [entryTrampolineVoid]⟩
    | error m => exact ⟨rfl, none, by simp [entryTrampolineVoid]⟩

/-- C2, confirmed.  The generated `xrDestroyInstance` body first copies
the stored final-destroy pointer into a local, then clears the registry
slot (destroying the Instance), and only then invokes the captured
pointer; in the step semantics — where reading an Instance field requires
the slot to be occupied — the whole body runs without getting stuck, the
slot is already empty with nothing yet invoked after the first two
statements, and a field read attempted once the slot is empty is stuck,
so no Instance field is read by the remainder of the destruction path. -/
theorem C2_destruction_ordering (api : OpenXrApi) (lf : Option FnPtr)
    (iv : List FnPtr) :
    runDestroy xrDestroyInstanceBody
        { g_instance := some api, localFinal := none, invoked := [] }
      = some { g_instance := none,
               localFinal := some api.m_xrDestroyInstance,
               invoked := [api.m_xrDestroyInstance] }
    ∧ runDestroy [DestroyInstr.captureFinalDestroy, DestroyInstr.resetInstance]
        { g_instance := some api, localFinal := none, invoked := [] }
      = some { g_instance := none,
               localFinal := some api.m_xrDestroyInstance, invoked := [] }
    ∧ destroyStep DestroyInstr.invokeCaptured
        { g_instance := none,
          localFinal := some api.m_xrDestroyInstance, invoked := [] }
      = some { g_instance := none,
               localFinal := some api.m_xrDestroyInstance,
               invoked := [api.m_xrDestroyInstance] }
    ∧ destroyStep DestroyInstr.captureFinalDestroy
        { g_instance := none, localFinal := lf, invoked := iv } = none :=
  ⟨rfl, rfl, rfl, rfl⟩

/-- C3, code bug.  When the caller filters by the layer's own name, the
generated `xrEnumerateInstanceExtensionProperties` skips the call to the
real runtime but leaves `result` at its initialiser
`XR_ERROR_RUNTIME_FAILURE`; the `XR_SUCCEEDED(result)` guard is then
false, so the advertised-extension append (whose
`layerName == LAYER_NAME` disjunct is thereby unreachable) never runs
and the call fails, returning the untouched buffer — for every real
runtime, capacity and buffer, contradicting the claim (and the code's
own comment) that such a call succeeds reporting the layer's
extensions. -/
theorem C3_own_layer_filter_fails (LAYER_NAME : String)
    (adv : List (String × Nat))
    (realEnum : Option String → Nat → EnumBuffer → Int × EnumBuffer)
    (cap : Nat) (buf : EnumBuffer) :
    xrEnumerateInstanceExtensionProperties LAYER_NAME adv realEnum
        (some LAYER_NAME) cap buf = (XR_ERROR_RUNTIME_FAILURE, buf) := by
  simp [xrEnumerateInstanceExtensionProperties, XR_SUCCEEDED,
    XR_ERROR_RUNTIME_FAILURE]

/-- C7, confirmed.  For the query name `xrDestroyInstance` the resolver
unconditionally — whatever result code and pointer the real resolver
produced — stores the real pointer into the `m_xrDestroyInstance` slot
and substitutes the trampoline's destruction address for the returned
pointer (passing the real result code through). -/
theorem C7_destroy_resolution_capture (cfg : LayerConfig)
    (surface : ApiSurface) (resolve : String → Int × FnPtr)
    (api : OpenXrApi) :
    xrGetInstanceProcAddrInternal cfg surface resolve api "xrDestroyInstance"
      = ((resolve "xrDestroyInstance").1,
         FnPtr.trampoline "xrDestroyInstance",
         { api with m_xrDestroyInstance := (resolve "xrDestroyInstance").2 }) := by
  simp [xrGetInstanceProcAddrInternal]

/-- C8, confirmed.  For an Override Set name contributed by an extension,
proc-address resolution forces the result code to `XR_SUCCESS` (besides
substituting the trampoline address), whatever the real resolver
returned; for an Override Set name in the core portion the real result
code is passed through unmodified alongside the substituted pointer. -/
theorem C8_extension_override_result_forcing
    (cfg : LayerConfig) (surface : ApiSurface)
    (resolve : String → Int × FnPtr) (api : OpenXrApi) (nameE nameC : String)
    (hEo : nameE ∈ cfg.override_functions)
    (hEe : nameE ∈ surface.ext_commands)
    (hEnc : nameE ∉ surface.core_commands)
    (hEd : nameE ≠ "xrDestroyInstance")
    (hCo : nameC ∈ cfg.override_functions)
    (hCc : nameC ∈ surface.core_commands)
    (hCd : nameC ≠ "xrDestroyInstance") :
    (xrGetInstanceProcAddrInternal cfg surface resolve api nameE).1 = XR_SUCCESS
    ∧ (xrGetInstanceProcAddrInternal cfg surface resolve api nameE).2.1
        = FnPtr.trampoline nameE
    ∧ (xrGetInstanceProcAddrInternal cfg surface resolve api nameC).1
        = (resolve nameC).1
    ∧ (xrGetInstanceProcAddrInternal cfg surface resolve api nameC).2.1
        = FnPtr.trampoline nameC := by
  refine ⟨?_, ?_, ?_, ?_⟩ <;>
    simp [xrGetInstanceProcAddrInternal, hEo, hEe, hEnc, hEd, hCo, hCc, hCd]

/-- C8 witness: with the small concrete configuration, the extension
override `xrGetVisibilityMaskKHR` resolves to `XR_SUCCESS` even though
the concrete real resolver fails on every name, while the core override
`xrGetSystem` keeps the real (failing) result code; both get trampoline
addresses. -/
theorem C8_extension_override_result_forcing_witness :
    ("xrGetVisibilityMaskKHR" ∈ sampleConfig.override_functions
      ∧ "xrGetVisibilityMaskKHR" ∈ sampleSurface.ext_commands
      ∧ "xrGetVisibilityMaskKHR" ∉ sampleSurface.core_commands
      ∧ "xrGetSystem" ∈ sampleConfig.override_functions
      ∧ "xrGetSystem" ∈ sampleSurface.core_commands)
    ∧ (xrGetInstanceProcAddrInternal sampleConfig sampleSurface failingResolve
        initialOpenXrApi "xrGetVisibilityMaskKHR").1 = XR_SUCCESS
    ∧ (xrGetInstanceProcAddrInternal sampleConfig sampleSurface failingResolve
        initialOpenXrApi "xrGetSystem").1
        = (failingResolve "xrGetSystem").1 :=
  ⟨by decide,
   (C8_extension_override_result_forcing sampleConfig sampleSurface
      failingResolve initialOpenXrApi "xrGetVisibilityMaskKHR" "xrGetSystem"
      (by decide) (by decide) (by decide) (by decide)
      (by decide) (by decide) (by decide)).1,
   (C8_extension_override_result_forcing sampleConfig sampleSurface
      failingResolve initialOpenXrApi "xrGetVisibilityMaskKHR" "xrGetSystem"
      (by decide) (by decide) (by decide) (by decide)
      (by decide) (by decide) (by decide)).2.2.1⟩

/-- The sanity checks accept a configuration exactly when none of the
four structurally special names appears in the Override Set or in the
Requested Set (helper characterisation, used by several theorems). -/
theorem checkConfiguration_ok_iff (cfg : LayerConfig) :
    checkConfiguration cfg = Except.ok ()
      ↔ ("xrCreateInstance" ∉ cfg.override_functions
        ∧ "xrCreateInstance" ∉ cfg.requested_functions
        ∧ "xrDestroyInstance" ∉ cfg.override_functions
        ∧ "xrDestroyInstance" ∉ cfg.requested_functions
        ∧ "xrEnumerateInstanceExtensionProperties" ∉ cfg.override_functions
        ∧ "xrEnumerateInstanceExtensionProperties" ∉ cfg.requested_functions
        ∧ "xrGetInstanceProcAddr" ∉ cfg.override_functions
        ∧ "xrGetInstanceProcAddr" ∉ cfg.requested_functions) := by
  simp only [checkConfiguration, checkSpecialFunctions,
    implicitlyOverriddenFunctions]
  split_ifs <;> simp_all

/-- C9, counterexample.  The configuration `c9Config` contains none of
the names the claim forbids (it has an empty Override Set and its
Requested Set holds only `xrDestroyInstance`, not the
proc-address-resolution name), so by the claim it should pass
validation; the sanity checks nevertheless reject it. -/
theorem C9_counterexample :
    "xrCreateInstance" ∉ c9Config.override_functions
    ∧ "xrDestroyInstance" ∉ c9Config.override_functions
    ∧ "xrGetInstanceProcAddr" ∉ c9Config.override_functions
    ∧ "xrGetInstanceProcAddr" ∉ c9Config.requested_functions
    ∧ checkConfiguration c9Config
        = Except.error "xrDestroyInstance() cannot be specified in requested_functions" :=
  ⟨by decide, by decide, by decide, by decide, rfl⟩

/-- C9, amended.  Configuration validation rejects, with a
generation-time (build-time) error, any configuration in which any of
the four structurally special names — instance creation, instance
destruction, extension enumeration, or proc-address resolution —
appears in the Override Set or in the Requested Set; a configuration
containing none of these four names in either set passes validation. -/
theorem C9_validation_scope (cfg : LayerConfig) :
    checkConfiguration cfg = Except.ok ()
      ↔ (∀ f ∈ ("xrGetInstanceProcAddr" :: implicitlyOverriddenFunctions),
          f ∉ cfg.override_functions ∧ f ∉ cfg.requested_functions) := by
  rw [checkConfiguration_ok_iff]
  simp only [implicitlyOverriddenFunctions, List.mem_cons, List.mem_singleton,
    List.not_mem_nil, forall_eq_or_imp, forall_eq, or_false, false_imp_iff,
    and_true]
  tauto

/-- C9 witness: the repository's actual configuration
(`openxr-api-layer/framework/layer_apis.py`) contains none of the four
special names in either set, and validation accepts it. -/
theorem C9_validation_scope_witness :
    checkConfiguration quadViewsFoveatedConfig = Except.ok () :=
  (C9_validation_scope quadViewsFoveatedConfig).mpr (by decide)

/-- If every name in the list resolves successfully, the required-binding
loop completes without throwing. -/
theorem resolveRequiredList_ok_of_all
    (resolve : String → Int × FnPtr) (l : List String) (api : OpenXrApi)
    (h : ∀ n ∈ l, XR_FAILED (resolve n).1 = false) :
    ∃ out, resolveRequiredList resolve l api = Except.ok out := by
  induction l generalizing api with
  | nil => exact ⟨(api, []), rfl⟩
  | cons m rest ih =>
      have hm : XR_FAILED (resolve m).1 = false := h m (List.mem_cons_self m rest)
      obtain ⟨out, hout⟩ :=
        ih { api with bindings := Function.update api.bindings m (resolve m).2 }
          (fun n hn => h n (List.mem_cons_of_mem m hn))
      exact ⟨(out.1, CreateEvent.resolveBinding m :: out.2),
        by simp [resolveRequiredList, hm, hout]⟩

/-- If some name in the list fails to resolve, the required-binding loop
throws. -/
theorem resolveRequiredList_fails
    (resolve : String → Int × FnPtr) (l : List String) (api : OpenXrApi)
    (n : String) (hn : n ∈ l) (hf : XR_FAILED (resolve n).1 = true) :
    ∃ e, resolveRequiredList resolve l api = Except.error e := by
  induction l generalizing api with
  | nil => cases hn
  | cons m rest ih =>
      by_cases hm : XR_FAILED (resolve m).1 = true
      · exact ⟨"Failed to resolve " ++ m, by simp [resolveRequiredList, hm]⟩
      · have hn' : n ∈ rest := by
          rcases List.mem_cons.mp hn with rfl | h
          · exact absurd hf hm
          · exact h
        obtain ⟨e, he⟩ :=
          ih { api with bindings := Function.update api.bindings m (resolve m).2 } hn'
        exact ⟨e, by simp [resolveRequiredList, hm, he]⟩

/-- After a successful required-binding loop, each processed name is
bound to the pointer the resolver produced for it and every other
binding is untouched. -/
theorem resolveRequiredList_bindings
    (resolve : String → Int × FnPtr) (l : List String) (api apiF : OpenXrApi)
    (evs : List CreateEvent)
    (h : resolveRequiredList resolve l api = Except.ok (apiF, evs)) (n : String) :
    apiF.bindings n = if n ∈ l then (resolve n).2 else api.bindings n := by
  induction l generalizing api evs with
  | nil =>
      simp only [resolveRequiredList, Except.ok.injEq, Prod.mk.injEq] at h
      obtain ⟨rfl, rfl⟩ := h
      simp
  | cons m rest ih =>
      simp only [resolveRequiredList] at h
      by_cases hm : XR_FAILED (resolve m).1 = true
      · rw [if_pos hm] at h
        exact absurd h (by simp)
      · rw [if_neg hm] at h
        cases hr : resolveRequiredList resolve rest
            { api with bindings := Function.update api.bindings m (resolve m).2 } with
        | error e => rw [hr] at h; exact absurd h (by simp)
        | ok out =>
            obtain ⟨api1, evs1⟩ := out
            rw [hr] at h
            simp only [Except.ok.injEq, Prod.mk.injEq] at h
            obtain ⟨rfl, rfl⟩ := h
            have hb := ih _ _ hr
            rw [hb]
            by_cases hnr : n ∈ rest <;> by_cases hnm : n = m <;>
              simp [hnr, hnm, List.mem_cons, Function.update_apply]

/-- The events of a successful required-binding loop are exactly one
binding resolution per processed name, in order. -/
theorem resolveRequiredList_events
    (resolve : String → Int × FnPtr) (l : List String) (api apiF : OpenXrApi)
    (evs : List CreateEvent)
    (h : resolveRequiredList resolve l api = Except.ok (apiF, evs)) :
    evs = l.map CreateEvent.resolveBinding := by
  induction l generalizing api evs with
  | nil =>
      simp only [resolveRequiredList, Except.ok.injEq, Prod.mk.injEq] at h
      simp [← h.2]
  | cons m rest ih =>
      simp only [resolveRequiredList] at h
      by_cases hm : XR_FAILED (resolve m).1 = true
      · rw [if_pos hm] at h
        exact absurd h (by simp)
      · rw [if_neg hm] at h
        cases hr : resolveRequiredList resolve rest
            { api with bindings := Function.update api.bindings m (resolve m).2 } with
        | error e => rw [hr] at h; exact absurd h (by simp)
        | ok out =>
            obtain ⟨api1, evs1⟩ := out
            rw [hr] at h
            simp only [Except.ok.injEq, Prod.mk.injEq] at h
            obtain ⟨rfl, rfl⟩ := h
            simp [ih _ _ hr]

/-- The optional-binding loop binds each processed name to the pointer
the resolver produced and leaves every other binding untouched. -/
theorem resolveOptionalList_bindings
    (resolve : String → Int × FnPtr) (l : List String) (api : OpenXrApi)
    (n : String) :
    (resolveOptionalList resolve l api).1.bindings n
      = if n ∈ l then (resolve n).2 else api.bindings n := by
  induction l generalizing api with
  | nil => simp [resolveOptionalList]
  | cons m rest ih =>
      by_cases hnm : n = m
      · subst hnm
        by_cases hnr : n ∈ rest
        · simp [resolveOptionalList, ih, hnr]
        · simp [resolveOptionalList, ih, hnr, Function.update_apply]
      · by_cases hnr : n ∈ rest
        · simp [resolveOptionalList, ih, hnr, hnm, List.mem_cons]
        · simp [resolveOptionalList, ih, hnr, hnm, List.mem_cons,
            Function.update_apply]

/-- The events of the optional-binding loop are exactly one binding
resolution per processed name, in order. -/
theorem resolveOptionalList_events
    (resolve : String → Int × FnPtr) (l : List String) (api : OpenXrApi) :
    (resolveOptionalList resolve l api).2 = l.map CreateEvent.resolveBinding := by
  induction l generalizing api with
  | nil => rfl
  | cons m rest ih => simp [resolveOptionalList, ih]

/-- C4, confirmed.  During instance creation every requested core name is
resolved through the real resolver and a failure on any such name aborts
creation, so no Instance is published and the registry slot stays empty
(the publication step itself is modelled from the spec, see
`createAndPublishInstance`); every requested extension name is resolved
best-effort, a failure leaving that binding null without failing
creation; and the application name is captured only after all binding
resolutions — it is the last event of a successful run. -/
theorem C4_creation_protocol
    (cfg : LayerConfig) (surface : ApiSurface)
    (resolve resolveBad : String → Int × FnPtr) (api : OpenXrApi)
    (appName nCore nExt : String)
    (hc1 : nCore ∈ surface.core_commands)
    (hc2 : nCore ∈ cfg.requested_functions)
    (hbad : XR_FAILED (resolveBad nCore).1 = true)
    (he1 : nExt ∈ surface.ext_commands)
    (he2 : nExt ∈ cfg.requested_functions)
    (he3 : nExt ∉ surface.core_commands)
    (hnull : (resolve nExt).2 = FnPtr.null)
    (hall : ∀ n ∈ surface.core_commands, n ∈ cfg.requested_functions →
        XR_FAILED (resolve n).1 = false) :
    (∃ e, xrCreateInstance cfg surface resolveBad api appName = Except.error e)
    ∧ (createAndPublishInstance cfg surface resolveBad api appName).1 = none
    ∧ (∃ api2 evs, xrCreateInstance cfg surface resolve api appName
          = Except.ok (XR_SUCCESS, api2, evs)
        ∧ api2.bindings nExt = FnPtr.null
        ∧ api2.m_applicationName = appName
        ∧ ∃ binds, evs = binds ++ [CreateEvent.captureApplicationName]
            ∧ ∀ ev ∈ binds, ∃ m, ev = CreateEvent.resolveBinding m) := by
  have hmemF : nCore ∈ surface.core_commands.filter (· ∈ cfg.requested_functions) :=
    List.mem_filter.mpr ⟨hc1, by simpa using hc2⟩
  obtain ⟨e, he⟩ := resolveRequiredList_fails resolveBad _ api nCore hmemF hbad
  have part1 : xrCreateInstance cfg surface resolveBad api appName
      = Except.error e := by
    simp [xrCreateInstance, he]
  refine ⟨⟨e, part1⟩, by simp [createAndPublishInstance, part1], ?_⟩
  have hallF : ∀ n ∈ surface.core_commands.filter (· ∈ cfg.requested_functions),
      XR_FAILED (resolve n).1 = false := fun n hn =>
    hall n (List.mem_filter.mp hn).1 (by simpa using (List.mem_filter.mp hn).2)
  obtain ⟨⟨api1, evs1⟩, hok⟩ := resolveRequiredList_ok_of_all resolve _ api hallF
  refine ⟨{ (resolveOptionalList resolve
        (surface.ext_commands.filter (· ∈ cfg.requested_functions)) api1).1
      with m_applicationName := appName },
    evs1 ++ (resolveOptionalList resolve
        (surface.ext_commands.filter (· ∈ cfg.requested_functions)) api1).2
      ++ [CreateEvent.captureApplicationName], ?_, ?_, rfl, ?_⟩
  · simp [xrCreateInstance, hok]
  · show (resolveOptionalList resolve
        (surface.ext_commands.filter (· ∈ cfg.requested_functions)) api1).1.bindings nExt
      = FnPtr.null
    have hmemE : nExt ∈ surface.ext_commands.filter (· ∈ cfg.requested_functions) :=
      List.mem_filter.mpr ⟨he1, by simpa using he2⟩
    rw [resolveOptionalList_bindings, if_pos hmemE, hnull]
  · refine ⟨evs1 ++ (resolveOptionalList resolve
        (surface.ext_commands.filter (· ∈ cfg.requested_functions)) api1).2,
      by simp, ?_⟩
    intro ev hev
    rcases List.mem_append.mp hev with hev1 | hev2
    · rw [resolveRequiredList_events resolve _ api api1 evs1 hok] at hev1
      obtain ⟨m, -, rfl⟩ := List.mem_map.mp hev1
      exact ⟨m, rfl⟩
    · rw [resolveOptionalList_events] at hev2
      obtain ⟨m, -, rfl⟩ := List.mem_map.mp hev2
      exact ⟨m, rfl⟩

/-- C4 witness: with the concrete fixtures, the all-failing resolver
leaves the registry slot empty, while under the resolver that fails only
on `xrCreateEyeTrackerFB` creation succeeds. -/
theorem C4_creation_protocol_witness :
    ("xrGetInstanceProperties" ∈ sampleSurface.core_commands
      ∧ "xrGetInstanceProperties" ∈ sampleConfig.requested_functions
      ∧ XR_FAILED (failingResolve "xrGetInstanceProperties").1 = true
      ∧ "xrCreateEyeTrackerFB" ∈ sampleSurface.ext_commands
      ∧ "xrCreateEyeTrackerFB" ∈ sampleConfig.requested_functions
      ∧ "xrCreateEyeTrackerFB" ∉ sampleSurface.core_commands
      ∧ (sampleResolve "xrCreateEyeTrackerFB").2 = FnPtr.null
      ∧ (∀ n ∈ sampleSurface.core_commands,
          n ∈ sampleConfig.requested_functions →
          XR_FAILED (sampleResolve n).1 = false))
    ∧ (createAndPublishInstance sampleConfig sampleSurface failingResolve
        initialOpenXrApi "FlightSim").1 = none :=
  ⟨by decide,
   (C4_creation_protocol sampleConfig sampleSurface sampleResolve failingResolve
      initialOpenXrApi "FlightSim" "xrGetInstanceProperties" "xrCreateEyeTrackerFB"
      (by decide) (by decide) (by decide) (by decide) (by decide) (by decide)
      (by decide) (by decide)).2.1⟩

/-- C5, confirmed.  Every Override Set name resolves to that name's fixed
trampoline address — never the pointer the real resolver produced — and,
since the substituted pointer depends only on the name (the object state
`api` is universally quantified), repeated resolutions return the same
pointer; every name in the Requested Set but not in the Override Set is
passed through unchanged, both result code and pointer, even though
instance creation stores the real pointer for it in the Function Binding
Table. -/
theorem C5_override_substitution_passthrough
    (cfg : LayerConfig) (surface : ApiSurface)
    (resolve : String → Int × FnPtr) (api : OpenXrApi) (appName : String)
    (nameO nameP : String)
    (hO : nameO ∈ cfg.override_functions)
    (hOs : nameO ∈ surface.core_commands ∨ nameO ∈ surface.ext_commands)
    (hreal : ∀ m, ((resolve m).2).isTrampolinePtr = false)
    (hcfg : checkConfiguration cfg = Except.ok ())
    (hP : nameP ∈ cfg.requested_functions)
    (hPo : nameP ∉ cfg.override_functions)
    (hPs : nameP ∈ surface.core_commands ∨ nameP ∈ surface.ext_commands)
    (hall : ∀ n ∈ surface.core_commands, n ∈ cfg.requested_functions →
        XR_FAILED (resolve n).1 = false) :
    (xrGetInstanceProcAddrInternal cfg surface resolve api nameO).2.1
        = FnPtr.trampoline nameO
    ∧ (xrGetInstanceProcAddrInternal cfg surface resolve api nameO).2.1
        ≠ (resolve nameO).2
    ∧ xrGetInstanceProcAddrInternal cfg surface resolve api nameP
        = ((resolve nameP).1, (resolve nameP).2, api)
    ∧ (∃ out, xrCreateInstance cfg surface resolve api appName = Except.ok out
        ∧ out.2.1.bindings nameP = (resolve nameP).2) := by
  obtain ⟨-, -, hdo, hdr, -, her, -, -⟩ := (checkConfiguration_ok_iff cfg).mp hcfg
  have hOd : nameO ≠ "xrDestroyInstance" := fun hh => hdo (hh ▸ hO)
  have tramp : (xrGetInstanceProcAddrInternal cfg surface resolve api nameO).2.1
      = FnPtr.trampoline nameO := by
    by_cases hcore : nameO ∈ surface.core_commands
    · simp [xrGetInstanceProcAddrInternal, hOd, hcore, hO]
    · have hext : nameO ∈ surface.ext_commands := hOs.resolve_left hcore
      simp [xrGetInstanceProcAddrInternal, hOd, hcore, hext, hO]
  refine ⟨tramp, ?_, ?_, ?_⟩
  · rw [tramp]
    intro hh
    have hfalse := hreal nameO
    rw [← hh] at hfalse
    simp [FnPtr.isTrampolinePtr] at hfalse
  · have hPd : nameP ≠ "xrDestroyInstance" := fun hh => hdr (hh ▸ hP)
    have hPe : nameP ≠ "xrEnumerateInstanceExtensionProperties" :=
      fun hh => her (hh ▸ hP)
    simp [xrGetInstanceProcAddrInternal, hPd, hPe, hPo]
  · have hallF : ∀ n ∈ surface.core_commands.filter (· ∈ cfg.requested_functions),
        XR_FAILED (resolve n).1 = false := fun n hn =>
      hall n (List.mem_filter.mp hn).1 (by simpa using (List.mem_filter.mp hn).2)
    obtain ⟨⟨api1, evs1⟩, hok⟩ := resolveRequiredList_ok_of_all resolve _ api hallF
    have hcreate : xrCreateInstance cfg surface resolve api appName
        = Except.ok (XR_SUCCESS,
            { (resolveOptionalList resolve
                (surface.ext_commands.filter (· ∈ cfg.requested_functions)) api1).1
              with m_applicationName := appName },
            evs1 ++ (resolveOptionalList resolve
                (surface.ext_commands.filter (· ∈ cfg.requested_functions)) api1).2
              ++ [CreateEvent.captureApplicationName]) := by
      simp [xrCreateInstance, hok]
    refine ⟨_, hcreate, ?_⟩
    show (resolveOptionalList resolve
        (surface.ext_commands.filter (· ∈ cfg.requested_functions)) api1).1.bindings nameP
      = (resolve nameP).2
    rw [resolveOptionalList_bindings]
    by_cases hext : nameP ∈ surface.ext_commands.filter (· ∈ cfg.requested_functions)
    · rw [if_pos hext]
    · rw [if_neg hext]
      have hcore : nameP ∈ surface.core_commands := by
        rcases hPs with h | h
        · exact h
        · exact absurd (List.mem_filter.mpr ⟨h, by simpa using hP⟩) hext
      have hcf : nameP ∈ surface.core_commands.filter (· ∈ cfg.requested_functions) :=
        List.mem_filter.mpr ⟨hcore, by simpa using hP⟩
      have hb := resolveRequiredList_bindings resolve _ api api1 evs1 hok nameP
      rw [if_pos hcf] at hb
      exact hb

/-- C5 witness: with the concrete fixtures, the override `xrGetSystem`
resolves to its trampoline address while the requested-only
`xrGetSystemProperties` is passed through with the real result code and
pointer. -/
theorem C5_override_substitution_passthrough_witness :
    ("xrGetSystem" ∈ sampleConfig.override_functions
      ∧ "xrGetSystem" ∈ sampleSurface.core_commands
      ∧ checkConfiguration sampleConfig = Except.ok ()
      ∧ "xrGetSystemProperties" ∈ sampleConfig.requested_functions
      ∧ "xrGetSystemProperties" ∉ sampleConfig.override_functions
      ∧ "xrGetSystemProperties" ∈ sampleSurface.core_commands
      ∧ (∀ m, ((sampleResolve m).2).isTrampolinePtr = false))
    ∧ (xrGetInstanceProcAddrInternal sampleConfig sampleSurface sampleResolve
        initialOpenXrApi "xrGetSystem").2.1 = FnPtr.trampoline "xrGetSystem"
    ∧ xrGetInstanceProcAddrInternal sampleConfig sampleSurface sampleResolve
        initialOpenXrApi "xrGetSystemProperties"
      = ((sampleResolve "xrGetSystemProperties").1,
         (sampleResolve "xrGetSystemProperties").2, initialOpenXrApi) := by
  have hreal : ∀ m, ((sampleResolve m).2).isTrampolinePtr = false := by
    intro m
    by_cases h : m = "xrCreateEyeTrackerFB" <;>
      simp [sampleResolve, h, FnPtr.isTrampolinePtr]
  have main := C5_override_substitution_passthrough sampleConfig sampleSurface
    sampleResolve initialOpenXrApi "FlightSim" "xrGetSystem"
    "xrGetSystemProperties" (by decide) (Or.inl (by decide)) hreal rfl
    (by decide) (by decide) (Or.inl (by decide)) (by decide)
  exact ⟨⟨by decide, by decide, rfl, by decide, by decide, by decide, hreal⟩,
    main.1, main.2.2.1⟩

/-- When every destination slot has the expected structure type, the fill
loop succeeds, writes each descriptor at its slot (preserving the rest of
the slot record) and touches no other slot. -/
theorem writeExtensionProperties_ok
    (descs : List (String × Nat)) (i : Nat)
    (props : Nat → XrExtensionProperties)
    (h : ∀ k, k < descs.length →
        (props (i + k)).type = XR_TYPE_EXTENSION_PROPERTIES) :
    (writeExtensionProperties descs i props).1 = XR_SUCCESS
    ∧ (∀ k, (hk : k < descs.length) →
        (writeExtensionProperties descs i props).2 (i + k)
          = { props (i + k) with
              extensionName := (descs.get ⟨k, hk⟩).1,
              extensionVersion := (descs.get ⟨k, hk⟩).2 })
    ∧ (∀ j, (∀ k, k < descs.length → j ≠ i + k) →
        (writeExtensionProperties descs i props).2 j = props j) := by
  induction descs generalizing i props with
  | nil =>
      exact ⟨rfl, fun k hk => absurd hk (Nat.not_lt_zero k), fun j _ => rfl⟩
  | cons d rest ih =>
      have h0 : (props i).type = XR_TYPE_EXTENSION_PROPERTIES := by
        simpa using h 0 (Nat.succ_pos rest.length)
      have hstep : writeExtensionProperties (d :: rest) i props
          = writeExtensionProperties rest (i + 1)
              (Function.update props i
                { props i with extensionName := d.1, extensionVersion := d.2 }) := by
        rw [writeExtensionProperties, if_neg (by simp [h0])]
      have hrest : ∀ k, k < rest.length →
          ((Function.update props i
              { props i with extensionName := d.1, extensionVersion := d.2 })
            ((i + 1) + k)).type = XR_TYPE_EXTENSION_PROPERTIES := by
        intro k hk
        rw [Function.update_noteq (by omega)]
        have hidx : i + 1 + k = i + (k + 1) := by omega
        rw [hidx]
        exact h (k + 1) (Nat.succ_lt_succ hk)
      obtain ⟨ih1, ih2, ih3⟩ := ih (i + 1) _ hrest
      refine ⟨by rw [hstep]; exact ih1, ?_, ?_⟩
      · intro k hk
        rw [hstep]
        cases k with
        | zero =>
            rw [ih3 (i + 0) (fun k2 _ => by omega)]
            show Function.update props i _ i = _
            rw [Function.update_same]
            rfl
        | succ k2 =>
            have hk2 : k2 < rest.length := Nat.succ_lt_succ_iff.mp hk
            have hidx : i + (k2 + 1) = (i + 1) + k2 := by omega
            rw [hidx, ih2 k2 hk2, Function.update_noteq (by omega)]
            rfl
      · intro j hj
        rw [hstep, ih3 j (fun k2 hk2 => by
          have := hj (k2 + 1) (Nat.succ_lt_succ hk2)
          omega)]
        exact Function.update_noteq (by have := hj 0 (Nat.succ_pos rest.length); omega) _ _

/-- When the destination slot for the descriptor at position `jb` has a
wrong structure type while all earlier slots are well-typed, the fill
loop stops there with `XR_ERROR_VALIDATION_FAILURE`, after having already
overwritten every earlier slot; no other slot is touched. -/
theorem writeExtensionProperties_break
    (descs : List (String × Nat)) (i jb : Nat)
    (props : Nat → XrExtensionProperties)
    (hjb : jb < descs.length)
    (hgood : ∀ k, k < jb →
        (props (i + k)).type = XR_TYPE_EXTENSION_PROPERTIES)
    (hbad : (props (i + jb)).type ≠ XR_TYPE_EXTENSION_PROPERTIES) :
    (writeExtensionProperties descs i props).1 = XR_ERROR_VALIDATION_FAILURE
    ∧ (∀ k, (hk : k < jb) →
        (writeExtensionProperties descs i props).2 (i + k)
          = { props (i + k) with
              extensionName := (descs.get ⟨k, Nat.lt_trans hk hjb⟩).1,
              extensionVersion := (descs.get ⟨k, Nat.lt_trans hk hjb⟩).2 })
    ∧ (∀ j, (∀ k, k < jb → j ≠ i + k) →
        (writeExtensionProperties descs i props).2 j = props j) := by
  induction descs generalizing i jb props with
  | nil => exact absurd hjb (Nat.not_lt_zero jb)
  | cons d rest ih =>
      cases jb with
      | zero =>
          have hstep : writeExtensionProperties (d :: rest) i props
              = (XR_ERROR_VALIDATION_FAILURE, props) := by
            rw [writeExtensionProperties, if_pos (by simpa using hbad)]
          exact ⟨by rw [hstep], fun k hk => absurd hk (Nat.not_lt_zero k),
            fun j _ => by rw [hstep]⟩
      | succ jb2 =>
          have h0 : (props i).type = XR_TYPE_EXTENSION_PROPERTIES := by
            simpa using hgood 0 (Nat.succ_pos jb2)
          have hstep : writeExtensionProperties (d :: rest) i props
              = writeExtensionProperties rest (i + 1)
                  (Function.update props i
                    { props i with extensionName := d.1, extensionVersion := d.2 }) := by
            rw [writeExtensionProperties, if_neg (by simp [h0])]
          have hjb2 : jb2 < rest.length := Nat.succ_lt_succ_iff.mp hjb
          have hgood2 : ∀ k, k < jb2 →
              ((Function.update props i
                  { props i with extensionName := d.1, extensionVersion := d.2 })
                ((i + 1) + k)).type = XR_TYPE_EXTENSION_PROPERTIES := by
            intro k hk
            rw [Function.update_noteq (by omega)]
            have hidx : i + 1 + k = i + (k + 1) := by omega
            rw [hidx]
            exact hgood (k + 1) (Nat.succ_lt_succ hk)
          have hbad2 : ((Function.update props i
              { props i with extensionName := d.1, extensionVersion := d.2 })
                ((i + 1) + jb2)).type ≠ XR_TYPE_EXTENSION_PROPERTIES := by
            rw [Function.update_noteq (by omega)]
            have hidx : i + 1 + jb2 = i + (jb2 + 1) := by omega
            rw [hidx]
            exact hbad
          obtain ⟨ih1, ih2, ih3⟩ := ih (i + 1) jb2 _ hjb2 hgood2 hbad2
          refine ⟨by rw [hstep]; exact ih1, ?_, ?_⟩
          · intro k hk
            rw [hstep]
            cases k with
            | zero =>
                rw [ih3 (i + 0) (fun k2 _ => by omega)]
                show Function.update props i _ i = _
                rw [Function.update_same]
                rfl
            | succ k2 =>
                have hk2 : k2 < jb2 := Nat.succ_lt_succ_iff.mp hk
                have hidx : i + (k2 + 1) = (i + 1) + k2 := by omega
                rw [hidx, ih2 k2 hk2, Function.update_noteq (by omega)]
                rfl
          · intro j hj
            rw [hstep, ih3 j (fun k2 hk2 => by
              have := hj (k2 + 1) (Nat.succ_lt_succ hk2)
              omega)]
            exact Function.update_noteq
              (by have := hj 0 (Nat.succ_pos jb2); omega) _ _

/-- C6, confirmed.  With no name filter and a real runtime reporting `rc`
extensions: a zero-capacity call succeeds and reports the augmented
total `rc + |advertised|`; a capacity-supplied call with any positive
capacity below the augmented total (in particular one fewer than the
reported count) fails with `XR_ERROR_SIZE_INSUFFICIENT`, still reporting
the required total in the count cell while the layer writes nothing into
the buffer; and a capacity-supplied call with exactly the reported count
succeeds, fills exactly the advertised records into the slots past the
real count, and touches no slot below the real count or at or past the
total. -/
theorem C6_capacity_protocol
    (LAYER_NAME : String) (adv : List (String × Nat))
    (realEnum : Option String → Nat → EnumBuffer → Int × EnumBuffer)
    (buf buf0 bufA bufB : EnumBuffer) (rc capA capB : Nat)
    (h0 : realEnum none 0 buf = (XR_SUCCESS, buf0))
    (h0c : buf0.propertyCountOutput = rc)
    (hA : realEnum none capA buf = (XR_SUCCESS, bufA))
    (hAc : bufA.propertyCountOutput = rc)
    (hApos : capA ≠ 0) (hAlt : capA < rc + adv.length)
    (hB : realEnum none capB buf = (XR_SUCCESS, bufB))
    (hBc : bufB.propertyCountOutput = rc)
    (hBeq : capB = rc + adv.length) (hBpos : capB ≠ 0)
    (htypes : ∀ k, k < adv.length →
        (bufB.properties (rc + k)).type = XR_TYPE_EXTENSION_PROPERTIES) :
    xrEnumerateInstanceExtensionProperties LAYER_NAME adv realEnum none 0 buf
      = (XR_SUCCESS, { buf0 with propertyCountOutput := rc + adv.length })
    ∧ xrEnumerateInstanceExtensionProperties LAYER_NAME adv realEnum none capA buf
      = (XR_ERROR_SIZE_INSUFFICIENT,
         { bufA with propertyCountOutput := rc + adv.length })
    ∧ (xrEnumerateInstanceExtensionProperties LAYER_NAME adv realEnum none capB buf).1
        = XR_SUCCESS
    ∧ (xrEnumerateInstanceExtensionProperties LAYER_NAME adv realEnum
        none capB buf).2.propertyCountOutput = rc + adv.length
    ∧ (∀ k, (hk : k < adv.length) →
        (xrEnumerateInstanceExtensionProperties LAYER_NAME adv realEnum
          none capB buf).2.properties (rc + k)
          = { bufB.properties (rc + k) with
              extensionName := (adv.get ⟨k, hk⟩).1,
              extensionVersion := (adv.get ⟨k, hk⟩).2 })
    ∧ (∀ j, j < rc ∨ rc + adv.length ≤ j →
        (xrEnumerateInstanceExtensionProperties LAYER_NAME adv realEnum
          none capB buf).2.properties j = bufB.properties j) := by
  have hBpos2 : rc + adv.length ≠ 0 := hBeq ▸ hBpos
  obtain ⟨w1, w2, w3⟩ := writeExtensionProperties_ok adv rc bufB.properties htypes
  have hz : xrEnumerateInstanceExtensionProperties LAYER_NAME adv realEnum none 0 buf
      = (XR_SUCCESS, { buf0 with propertyCountOutput := rc + adv.length }) := by
    simp only [xrEnumerateInstanceExtensionProperties]
    rw [h0]
    simp [XR_SUCCEEDED, XR_SUCCESS, h0c]
  have ha : xrEnumerateInstanceExtensionProperties LAYER_NAME adv realEnum none capA buf
      = (XR_ERROR_SIZE_INSUFFICIENT,
         { bufA with propertyCountOutput := rc + adv.length }) := by
    simp only [xrEnumerateInstanceExtensionProperties]
    rw [hA]
    simp [XR_SUCCEEDED, XR_SUCCESS, hAc, hApos, hAlt]
  have hb : xrEnumerateInstanceExtensionProperties LAYER_NAME adv realEnum none capB buf
      = ((writeExtensionProperties adv rc bufB.properties).1,
         { propertyCountOutput := rc + adv.length,
           properties := (writeExtensionProperties adv rc bufB.properties).2 }) := by
    simp only [xrEnumerateInstanceExtensionProperties]
    rw [hB]
    simp [XR_SUCCEEDED, XR_SUCCESS, hBc, hBeq, hBpos2]
  refine ⟨hz, ha, ?_, ?_, ?_, ?_⟩
  · rw [hb]; exact w1
  · rw [hb]
  · intro k hk
    rw [hb]
    exact w2 k hk
  · intro j hj
    rw [hb]
    exact w3 j (fun k hk => by omega)

/-- C6 witness: real count 1, two advertised extensions; capacity 2 is
one short of the reported total 3 and fails with size-insufficient,
capacity 3 succeeds. -/
theorem C6_capacity_protocol_witness :
    ((2 : Nat) ≠ 0 ∧ (2 : Nat) < 1 + sampleAdvertised.length
      ∧ (3 : Nat) = 1 + sampleAdvertised.length)
    ∧ xrEnumerateInstanceExtensionProperties sampleLayerName sampleAdvertised
        sampleRealEnumerate none 2 sampleBuffer
      = (XR_ERROR_SIZE_INSUFFICIENT,
         { sampleBuffer with propertyCountOutput := 1 + sampleAdvertised.length })
    ∧ (xrEnumerateInstanceExtensionProperties sampleLayerName sampleAdvertised
        sampleRealEnumerate none 3 sampleBuffer).1 = XR_SUCCESS
    ∧ (xrEnumerateInstanceExtensionProperties sampleLayerName sampleAdvertised
        sampleRealEnumerate none 3 sampleBuffer).2.propertyCountOutput
      = 1 + sampleAdvertised.length := by
  have main := C6_capacity_protocol sampleLayerName sampleAdvertised
    sampleRealEnumerate sampleBuffer
    { sampleBuffer with propertyCountOutput := 1 }
    { sampleBuffer with propertyCountOutput := 1 }
    { sampleBuffer with propertyCountOutput := 1 }
    1 2 3 rfl rfl rfl rfl (by decide) (by decide) rfl rfl (by decide) (by decide)
    (fun k _ => rfl)
  exact ⟨⟨by decide, by decide, by decide⟩, main.2.1, main.2.2.1, main.2.2.2.1⟩

/-- C10, confirmed.  The fill loop is not atomic on validation failure:
if, with no name filter, a sufficient capacity and a successful real call
reporting `rc` records, the destination slot for the descriptor at
position `jb` (i.e. slot `rc + jb`) has a wrong record kind while the
earlier destination slots are well-kinded, the call returns
`XR_ERROR_VALIDATION_FAILURE`, yet every slot from `rc` up to
`rc + jb - 1` has already been overwritten with the layer's descriptors
and the output count already holds the augmented total. -/
theorem C10_fill_loop_not_atomic
    (LAYER_NAME : String) (adv : List (String × Nat))
    (realEnum : Option String → Nat → EnumBuffer → Int × EnumBuffer)
    (buf bufR : EnumBuffer) (rc cap jb : Nat)
    (hreal : realEnum none cap buf = (XR_SUCCESS, bufR))
    (hrc : bufR.propertyCountOutput = rc)
    (hcap0 : cap ≠ 0) (hcap : rc + adv.length ≤ cap)
    (hjb : jb < adv.length)
    (hgood : ∀ k, k < jb →
        (bufR.properties (rc + k)).type = XR_TYPE_EXTENSION_PROPERTIES)
    (hbad : (bufR.properties (rc + jb)).type ≠ XR_TYPE_EXTENSION_PROPERTIES) :
    (xrEnumerateInstanceExtensionProperties LAYER_NAME adv realEnum
        none cap buf).1 = XR_ERROR_VALIDATION_FAILURE
    ∧ (xrEnumerateInstanceExtensionProperties LAYER_NAME adv realEnum
        none cap buf).2.propertyCountOutput = rc + adv.length
    ∧ (∀ k, (hk : k < jb) →
        (xrEnumerateInstanceExtensionProperties LAYER_NAME adv realEnum
          none cap buf).2.properties (rc + k)
          = { bufR.properties (rc + k) with
              extensionName := (adv.get ⟨k, Nat.lt_trans hk hjb⟩).1,
              extensionVersion := (adv.get ⟨k, Nat.lt_trans hk hjb⟩).2 })
    ∧ (∀ j, (∀ k, k < jb → j ≠ rc + k) →
        (xrEnumerateInstanceExtensionProperties LAYER_NAME adv realEnum
          none cap buf).2.properties j = bufR.properties j) := by
  obtain ⟨w1, w2, w3⟩ := writeExtensionProperties_break adv rc jb
    bufR.properties hjb hgood hbad
  have hnlt : ¬ cap < rc + adv.length := by omega
  have hrun : xrEnumerateInstanceExtensionProperties LAYER_NAME adv realEnum
      none cap buf
      = ((writeExtensionProperties adv rc bufR.properties).1,
         { propertyCountOutput := rc + adv.length,
           properties := (writeExtensionProperties adv rc bufR.properties).2 }) := by
    simp only [xrEnumerateInstanceExtensionProperties]
    rw [hreal]
    simp [XR_SUCCEEDED, XR_SUCCESS, hrc, hcap0, hnlt]
  refine ⟨by rw [hrun]; exact w1, by rw [hrun], ?_, ?_⟩
  · intro k hk
    rw [hrun]
    exact w2 k hk
  · intro j hj
    rw [hrun]
    exact w3 j hj

/-- C10 witness: real count 1, two advertised descriptors, destination
slot 2 mis-kinded: the call fails with validation-failure, yet slot 1 was
already overwritten with the first advertised descriptor and the count
cell already holds the augmented total 3. -/
theorem C10_fill_loop_not_atomic_witness :
    ((1 : Nat) < sampleAdvertised.length
      ∧ ¬ ((mixedBuffer.properties (1 + 1)).type = XR_TYPE_EXTENSION_PROPERTIES))
    ∧ (xrEnumerateInstanceExtensionProperties sampleLayerName sampleAdvertised
        sampleRealEnumerate none 3 mixedBuffer).1 = XR_ERROR_VALIDATION_FAILURE
    ∧ (xrEnumerateInstanceExtensionProperties sampleLayerName sampleAdvertised
        sampleRealEnumerate none 3 mixedBuffer).2.propertyCountOutput
      = 1 + sampleAdvertised.length := by
  have main := C10_fill_loop_not_atomic sampleLayerName sampleAdvertised
    sampleRealEnumerate mixedBuffer
    { mixedBuffer with propertyCountOutput := 1 }
    1 3 1 rfl rfl (by decide) (by decide) (by decide)
    (fun k hk => by
      have hk0 : k = 0 := Nat.lt_one_iff.mp hk
      subst hk0
      rfl)
    (by decide)
  exact ⟨⟨by decide, by decide⟩, main.1, main.2.1⟩

end OpenXrLayer
